import Mathlib

/-!
Shallow embedding of `src/multimethod.ts` (WhimsicalCode/multimethod).

The source (40 lines) builds a dispatch registry:

  const defaultDispatch = Symbol("defaultDispatch");
  function multimethod(dispatchFn, defaultMethod?) {
    const methods = {};                       -- plain object literal
    const multimethod = (...args) => {
      const dispatch = dispatchFn(...args);
      const method = methods[dispatch] ?? methods[defaultDispatch];
      if (method == null) throw new Error(`No method defined for dispatch ${dispatch}`);
      return method(...args);
    };
    multimethod.method = (dispatch, method) => { methods[dispatch] = method; return multimethod; };
    if (defaultMethod) { methods[defaultDispatch] = defaultMethod; }
    return multimethod;
  }

Embedding choices, all translated from the source and from the JavaScript
semantics it runs under:

* Table keys are `MKey`: either a string token (`MKey.str`) or the unique
  symbol `defaultDispatch` (`MKey.defaultSym`).  In JS a symbol is in a
  namespace disjoint from all strings; in the embedding this is the
  disjointness of the two constructors.
* The table `methods` is an association list `List (MKey × JSFun α ε β)`
  of the object's own properties; JS property assignment
  (`methods[k] = v`) is `setEntry` (replace the entry if the key is
  present, append otherwise), own-property read is `getEntry`.
* `methods` is an object literal, so a property read `methods[dispatch]`
  that misses every own property continues on the prototype chain and can
  hit the properties of `Object.prototype`.  Its standard function-valued
  property names are `objectPrototypeFunctionKeys` (ECMA-262
  `Object.prototype` methods plus the Annex B `__defineGetter__` family);
  `"__proto__"` is an inherited accessor whose getter yields the
  receiver's current prototype and whose setter re-targets it.
* The prototype of `methods` is itself mutable: the assignment
  `methods["__proto__"] = method` does not create an own property but
  re-targets the table's prototype to the assigned function.  The
  development therefore has two state types.  `Multimethod` covers the
  registry states whose prototype is still `Object.prototype` — every
  state reachable while no registration used the token `"__proto__"` —
  and `MultimethodP` carries the mutable prototype (`ProtoState`),
  with the full `[[Get]]` walk (`chainGet`) and `[[Set]]` semantics
  (`MultimethodP.methodP`), including the strict-mode failures
  (`multimethod.js` is compiled with `"use strict"`).
  `Multimethod.toFull` embeds the restricted states into the full ones,
  and `invokeP_toFull` / `methodP_toFull` prove the two models agree
  there.
* Functions that can throw are modelled as `α → Except ε β` where `ε` is
  the type of user-thrown errors; `args` of an invocation are one value
  of type `α`.
* An invocation's observable result is an `Outcome`: a normal return, a
  user error propagated verbatim, the registry's own
  "No method defined for dispatch <token>" error, the call of an
  inherited `Object.prototype` builtin (kept opaque), or the `TypeError`
  raised when the looked-up inherited value is not callable.
-/

/-- A JavaScript function value of the registry's call signature: it
either returns normally or throws an error of type `ε`. -/
def JSFun (α ε β : Type) : Type := α → Except ε β

/-- A key of the `methods` object: a string dispatch token, or the unique
symbol `defaultDispatch` used for the default-method slot. -/
inductive MKey : Type where
  | str : String → MKey
  | defaultSym : MKey
deriving DecidableEq, Repr

/-- Own-property read on the `methods` object: the value stored under
`k`, if any (`undefined` is `none`). -/
def getEntry {F : Type} : List (MKey × F) → MKey → Option F
  | [], _ => none
  | (k', f) :: rest, k => if k' = k then some f else getEntry rest k

/-- JS property assignment `methods[k] = f`: replace the entry whose key
is `k` if one exists, otherwise append a new entry. -/
def setEntry {F : Type} : List (MKey × F) → MKey → F → List (MKey × F)
  | [], k, f => [(k, f)]
  | (k', g) :: rest, k, f =>
    if k' = k then (k, f) :: rest else (k', g) :: setEntry rest k f

/-- The names of the function-valued properties every object literal
inherits from `Object.prototype` (ECMA-262 19.1.3 plus the Annex B
legacy accessor-definition methods). -/
def objectPrototypeFunctionKeys : List String :=
  ["constructor", "hasOwnProperty", "isPrototypeOf", "propertyIsEnumerable",
   "toLocaleString", "toString", "valueOf",
   "__defineGetter__", "__defineSetter__", "__lookupGetter__", "__lookupSetter__"]

/-- The names of the inherited `Object.prototype` accessor properties:
`"__proto__"`'s getter yields the receiver's current prototype (for a
table whose prototype is still `Object.prototype`, that object — which
is not callable), and its setter re-targets the receiver's prototype. -/
def objectPrototypeAccessorKeys : List String := ["__proto__"]

/-- A multimethod registry state whose `methods` object still has its
original prototype, `Object.prototype`: the dispatch function fixed at
construction and the own-property table.  These are exactly the states
reachable while no registration has used the token `"__proto__"` (the
one string key whose assignment mutates the prototype instead of
creating an own entry).  The general state, with the mutable
`[[Prototype]]` included, is `MultimethodP` below; `Multimethod.toFull`
embeds this restricted state into it. -/
structure Multimethod (α ε β : Type) : Type where
  dispatchFn : JSFun α ε String
  methods : List (MKey × JSFun α ε β)

/-- `multimethod(dispatchFn, defaultMethod?)`: starts from an empty table
and, when a default method is supplied, stores it under the
`defaultDispatch` symbol (`if (defaultMethod) methods[defaultDispatch] =
defaultMethod`; a supplied function value is always truthy). -/
def multimethod {α ε β : Type} (dispatchFn : JSFun α ε String)
    (defaultMethod : Option (JSFun α ε β)) : Multimethod α ε β :=
  { dispatchFn := dispatchFn
    methods :=
      match defaultMethod with
      | some d => [(MKey.defaultSym, d)]
      | none => [] }

/-- `multimethod.method(dispatch, method)`: writes the implementation
under the string token and returns the (mutated) registry itself.  This
is the own-property write that `methods[dispatch] = method` performs for
every dispatch token other than `"__proto__"`; the `"__proto__"`
assignment instead hits the inherited `Object.prototype.__proto__`
setter and re-targets the table's prototype — that case is
`MultimethodP.methodP` on the full state. -/
def Multimethod.method {α ε β : Type} (m : Multimethod α ε β) (dispatch : String)
    (impl : JSFun α ε β) : Multimethod α ε β :=
  { m with methods := setEntry m.methods (MKey.str dispatch) impl }

/-- The value of the local `method` variable in the source's invocation
body, `methods[dispatch] ?? methods[defaultDispatch]`, classified. -/
inductive Resolved (α ε β : Type) : Type where
  | user : JSFun α ε β → Resolved α ε β
  | inheritedFn : String → Resolved α ε β
  | inheritedObj : String → Resolved α ε β
  | miss : Resolved α ε β

/-- `methods[dispatch] ?? methods[defaultDispatch]`: the string-keyed
read first checks own properties, then the `Object.prototype` chain;
only when that read yields `undefined` does `??` fall back to the
symbol-keyed default slot (a nullish check, so an inherited value blocks
the fallback). -/
def Multimethod.resolve {α ε β : Type} (m : Multimethod α ε β) (tok : String) :
    Resolved α ε β :=
  match getEntry m.methods (MKey.str tok) with
  | some f => Resolved.user f
  | none =>
    if tok ∈ objectPrototypeFunctionKeys then Resolved.inheritedFn tok
    else if tok ∈ objectPrototypeAccessorKeys then Resolved.inheritedObj tok
    else
      match getEntry m.methods MKey.defaultSym with
      | some d => Resolved.user d
      | none => Resolved.miss

/-- The registry's error message, `No method defined for dispatch ${dispatch}`. -/
def noMethodMessage (tok : String) : String :=
  "No method defined for dispatch " ++ tok

/-- Observable result of one invocation. `inheritedCall name` records
that the inherited builtin called `name` was invoked with the original
arguments (its own behaviour is outside the model);
`typeErrorNotFunction name` is the `TypeError` JS raises when
`method(...args)` is attempted on a non-callable value the chain lookup
produced for the key `name`; `typeErrorAccessor name` is the
`TypeError` thrown already by the property read itself, when the lookup
hits one of the poisoned `Function.prototype` accessors (`"arguments"`,
`"caller"`). -/
inductive Outcome (ε β : Type) : Type where
  | ok : β → Outcome ε β
  | thrown : ε → Outcome ε β
  | noMethod : String → Outcome ε β
  | inheritedCall : String → Outcome ε β
  | typeErrorNotFunction : String → Outcome ε β
  | typeErrorAccessor : String → Outcome ε β
deriving DecidableEq, Repr

/-- Lift the result of calling a user-supplied function (`return
method(...args)`): a normal return, or its thrown error propagated
verbatim. -/
def callResult {ε β : Type} : Except ε β → Outcome ε β
  | Except.ok v => Outcome.ok v
  | Except.error e => Outcome.thrown e

/-- One invocation of the registry, line by line from the source:
compute `dispatch = dispatchFn(...args)` (an error there propagates
uncaught), resolve `method`, throw `No method defined ...` when it is
nullish, otherwise call it with the original arguments. -/
def Multimethod.invoke {α ε β : Type} (m : Multimethod α ε β) (args : α) :
    Outcome ε β :=
  match m.dispatchFn args with
  | Except.error e => Outcome.thrown e
  | Except.ok tok =>
    match m.resolve tok with
    | Resolved.user f => callResult (f args)
    | Resolved.inheritedFn name => Outcome.inheritedCall name
    | Resolved.inheritedObj name => Outcome.typeErrorNotFunction name
    | Resolved.miss => Outcome.noMethod (noMethodMessage tok)

/-- One invocation with the table state threaded through explicitly: the
invocation body reads `methods` but contains no assignment to it, so
every branch returns the table it started from. -/
def Multimethod.invokeS {α ε β : Type} (m : Multimethod α ε β) (args : α) :
    Outcome ε β × Multimethod α ε β :=
  match m.dispatchFn args with
  | Except.error e => (Outcome.thrown e, m)
  | Except.ok tok =>
    match m.resolve tok with
    | Resolved.user f => (callResult (f args), m)
    | Resolved.inheritedFn name => (Outcome.inheritedCall name, m)
    | Resolved.inheritedObj name => (Outcome.typeErrorNotFunction name, m)
    | Resolved.miss => (Outcome.noMethod (noMethodMessage tok), m)

/-- Demo registry over string arguments: identity dispatch, no default
method, nothing registered. -/
def demoNoDefault : Multimethod String String Nat :=
  multimethod (fun s => Except.ok s) none

/-- Demo registry with a default method returning `0`, nothing
registered. -/
def demoWithDefault : Multimethod String String Nat :=
  multimethod (fun s => Except.ok s) (some (fun _ => Except.ok 0))

example : demoNoDefault.invoke "a" = Outcome.noMethod "No method defined for dispatch a" := rfl
example : demoNoDefault.invoke "toString" = Outcome.inheritedCall "toString" := rfl
example : demoNoDefault.invoke "__proto__" = Outcome.typeErrorNotFunction "__proto__" := rfl
example : demoWithDefault.invoke "bar" = Outcome.ok 0 := rfl
example : (demoNoDefault.method "a" (fun _ => Except.ok 7)).invoke "a" = Outcome.ok 7 := rfl

/-- The mutable `[[Prototype]]` of the `methods` object.  At construction
it is `Object.prototype`; the assignment `methods["__proto__"] = method`
reaches the inherited `Object.prototype.__proto__` setter, which
re-targets it to the assigned value — always one of the registered
implementations, a function object. -/
inductive ProtoState (α ε β : Type) : Type where
  | objectProto : ProtoState α ε β
  | fnProto : JSFun α ε β → ProtoState α ε β

/-- The own data properties that every JavaScript function object
carries: `"length"` (a number) and `"name"` (a string), both
non-callable and non-writable.  An ordinary (non-arrow) function would
additionally expose an own, writable `"prototype"` object; the model
fixes the shape shared by all function kinds and used by the source's
own examples (arrow functions). -/
def functionOwnKeys : List String := ["length", "name"]

/-- The function-valued own properties of `Function.prototype`, next on
the chain when the table's prototype is a function: all callable
builtins.  (Its own `"length"` and `"name"` are shadowed by the
function's own ones.) -/
def functionPrototypeFunctionKeys : List String :=
  ["apply", "bind", "call", "constructor", "toString"]

/-- The poisoned accessor properties of `Function.prototype`
(`"arguments"`, `"caller"`): their getter and setter throw a `TypeError`
as soon as the property is read or written. -/
def functionPrototypePoisonedKeys : List String := ["arguments", "caller"]

/-- The value a string-keyed read finds on the prototype chain once the
own properties of the table have missed, classified. -/
inductive ChainVal (α ε β : Type) : Type where
  | builtin : String → ChainVal α ε β
  | userFn : JSFun α ε β → ChainVal α ε β
  | nonCallable : String → ChainVal α ε β
  | poisonedAccessor : String → ChainVal α ε β
  | absent : ChainVal α ε β

/-- The prototype-chain part of `methods[tok]` (own properties already
missed).  With the original prototype the chain is `[Object.prototype]`;
after `methods["__proto__"] = f` it is
`[f, Function.prototype, Object.prototype]`: `f`'s own `"length"` and
`"name"` are non-callable data, `Function.prototype` contributes its
builtins and poisoned accessors, and the `"__proto__"` accessor (found
on `Object.prototype` in both cases) yields the receiver's current
prototype — `Object.prototype` (non-callable) originally, the callable
`f` after the re-targeting. -/
def chainGet {α ε β : Type} (p : ProtoState α ε β) (tok : String) :
    ChainVal α ε β :=
  match p with
  | ProtoState.objectProto =>
    if tok ∈ objectPrototypeFunctionKeys then ChainVal.builtin tok
    else if tok = "__proto__" then ChainVal.nonCallable tok
    else ChainVal.absent
  | ProtoState.fnProto f =>
    if tok ∈ functionOwnKeys then ChainVal.nonCallable tok
    else if tok ∈ functionPrototypeFunctionKeys then ChainVal.builtin tok
    else if tok ∈ functionPrototypePoisonedKeys then ChainVal.poisonedAccessor tok
    else if tok ∈ objectPrototypeFunctionKeys then ChainVal.builtin tok
    else if tok = "__proto__" then ChainVal.userFn f
    else ChainVal.absent

/-- The full state of one multimethod registry: dispatch function, own
properties of the `methods` object, and its mutable `[[Prototype]]`. -/
structure MultimethodP (α ε β : Type) : Type where
  dispatchFn : JSFun α ε String
  methods : List (MKey × JSFun α ε β)
  proto : ProtoState α ε β

/-- `multimethod(dispatchFn, defaultMethod?)` on the full state: empty
own-property table except for the optional default slot, prototype
`Object.prototype`. -/
def multimethodP {α ε β : Type} (dispatchFn : JSFun α ε String)
    (defaultMethod : Option (JSFun α ε β)) : MultimethodP α ε β :=
  { dispatchFn := dispatchFn
    methods :=
      match defaultMethod with
      | some d => [(MKey.defaultSym, d)]
      | none => []
    proto := ProtoState.objectProto }

/-- Embed a restricted registry state into the full state space. -/
def Multimethod.toFull {α ε β : Type} (m : Multimethod α ε β) :
    MultimethodP α ε β :=
  { dispatchFn := m.dispatchFn, methods := m.methods
    proto := ProtoState.objectProto }

/-- `methods[dispatch] = method` with the full strict-mode `[[Set]]`
semantics.  An existing own property is overwritten.  Otherwise the
chain is consulted: the key `"__proto__"` always reaches the
`Object.prototype.__proto__` setter, which re-targets the table's
prototype to the (function, hence object) value; with a function
prototype, a key among its non-writable own data properties
(`"length"`, `"name"`) or among the poisoned accessors (`"arguments"`,
`"caller"`) makes the strict-mode assignment throw a `TypeError`
(`none`; the table is unchanged and `multimethod.method` never
returns); every other key — writable chain data properties such as
`"call"` or `"toString"` included — creates or updates an own entry. -/
def MultimethodP.methodP {α ε β : Type} (m : MultimethodP α ε β)
    (dispatch : String) (impl : JSFun α ε β) : Option (MultimethodP α ε β) :=
  match getEntry m.methods (MKey.str dispatch) with
  | some _ => some { m with methods := setEntry m.methods (MKey.str dispatch) impl }
  | none =>
    match m.proto with
    | ProtoState.objectProto =>
      if dispatch = "__proto__" then some { m with proto := ProtoState.fnProto impl }
      else some { m with methods := setEntry m.methods (MKey.str dispatch) impl }
    | ProtoState.fnProto _ =>
      if dispatch ∈ functionOwnKeys then none
      else if dispatch ∈ functionPrototypePoisonedKeys then none
      else if dispatch = "__proto__" then some { m with proto := ProtoState.fnProto impl }
      else some { m with methods := setEntry m.methods (MKey.str dispatch) impl }

/-- One invocation on the full state: dispatch, own-property lookup,
prototype-chain lookup, `??` fallback to the default slot (the chain
holds no property under the unique symbol, and only a nullish read falls
through), null check, call.  A callable chain value — a builtin, or the
registered function returned by the `"__proto__"` getter after
re-targeting — blocks the fallback and is called; a non-callable one
yields the `TypeError` of calling a non-function; a poisoned accessor
throws already during the read. -/
def MultimethodP.invokeP {α ε β : Type} (m : MultimethodP α ε β) (args : α) :
    Outcome ε β :=
  match m.dispatchFn args with
  | Except.error e => Outcome.thrown e
  | Except.ok tok =>
    match getEntry m.methods (MKey.str tok) with
    | some f => callResult (f args)
    | none =>
      match chainGet m.proto tok with
      | ChainVal.builtin name => Outcome.inheritedCall name
      | ChainVal.userFn f => callResult (f args)
      | ChainVal.nonCallable name => Outcome.typeErrorNotFunction name
      | ChainVal.poisonedAccessor name => Outcome.typeErrorAccessor name
      | ChainVal.absent =>
        match getEntry m.methods MKey.defaultSym with
        | some d => callResult (d args)
        | none => Outcome.noMethod (noMethodMessage tok)

/-- Full-state demo registry: identity dispatch, no default method,
nothing registered, original prototype. -/
def demoP : MultimethodP String String Nat :=
  multimethodP (fun s => Except.ok s) none

/-- The implementation a demo registration stores. -/
def implForProto : JSFun String String Nat := fun _ => Except.ok 99

/-- `demoP` after `method("__proto__", implForProto)`: the own-property
table is still empty, but the table's prototype is now the registered
function. -/
def demoPolluted : MultimethodP String String Nat :=
  { demoP with proto := ProtoState.fnProto implForProto }

/-- `demoP` after the ordinary registration `method("a", implForProto)`. -/
def demoRegA : MultimethodP String String Nat :=
  { demoP with methods := setEntry demoP.methods (MKey.str "a") implForProto }

example : demoP.methodP "__proto__" implForProto = some demoPolluted := rfl
example : demoP.invokeP "name" = Outcome.noMethod "No method defined for dispatch name" := rfl
example : demoPolluted.invokeP "name" = Outcome.typeErrorNotFunction "name" := rfl
example : demoPolluted.invokeP "call" = Outcome.inheritedCall "call" := rfl
example : demoPolluted.invokeP "__proto__" = Outcome.ok 99 := rfl
example : demoPolluted.invokeP "arguments" = Outcome.typeErrorAccessor "arguments" := rfl
example : demoPolluted.methodP "name" implForProto = none := rfl

/-- Reading back the key just assigned yields the assigned value. -/
theorem getEntry_setEntry_self {F : Type} (ms : List (MKey × F)) (k : MKey) (f : F) :
    getEntry (setEntry ms k f) k = some f := by
  induction ms with
  | nil => simp [setEntry, getEntry]
  | cons p rest ih =>
    obtain ⟨k', g⟩ := p
    by_cases h : k' = k
    · simp [setEntry, getEntry, h]
    · simp [setEntry, getEntry, h, ih]

/-- Assigning one key leaves the value read at every other key unchanged. -/
theorem getEntry_setEntry_other {F : Type} {k j : MKey} (hne : k ≠ j)
    (ms : List (MKey × F)) (f : F) :
    getEntry (setEntry ms j f) k = getEntry ms k := by
  have hjk : ¬ (j = k) := fun h => hne h.symm
  induction ms with
  | nil => simp [setEntry, getEntry, hjk]
  | cons p rest ih =>
    obtain ⟨k', g⟩ := p
    by_cases h : k' = j
    · subst h
      simp [setEntry, getEntry, hjk]
    · simp [setEntry, getEntry, h, ih]

/-- Registration does not touch the dispatch function. -/
theorem dispatchFn_method {α ε β : Type} (m : Multimethod α ε β) (t : String)
    (i : JSFun α ε β) : (m.method t i).dispatchFn = m.dispatchFn := rfl

/-- The table after a registration. -/
theorem methods_method {α ε β : Type} (m : Multimethod α ε β) (t : String)
    (i : JSFun α ε β) :
    (m.method t i).methods = setEntry m.methods (MKey.str t) i := rfl

/-- After registering `i` under `t`, resolution at `t` finds `i`: the own
property shadows both the prototype chain and the default slot. -/
theorem resolve_method_self {α ε β : Type} (m : Multimethod α ε β) (t : String)
    (i : JSFun α ε β) : (m.method t i).resolve t = Resolved.user i := by
  simp [Multimethod.resolve, methods_method, getEntry_setEntry_self]

/-- When the dispatch function returns `tok`, invocation is determined by
resolution at `tok`. -/
theorem invoke_dispatch_ok {α ε β : Type} (m : Multimethod α ε β) {args : α}
    {tok : String} (hd : m.dispatchFn args = Except.ok tok) :
    m.invoke args =
      match m.resolve tok with
      | Resolved.user f => callResult (f args)
      | Resolved.inheritedFn name => Outcome.inheritedCall name
      | Resolved.inheritedObj name => Outcome.typeErrorNotFunction name
      | Resolved.miss => Outcome.noMethod (noMethodMessage tok) := by
  simp [Multimethod.invoke, hd]

/-- Invocation after registering the very token that the arguments
dispatch to calls the registered implementation on those arguments. -/
theorem invoke_method_self_aux {α ε β : Type} (m : Multimethod α ε β) {t : String}
    (i : JSFun α ε β) {args : α} (hd : m.dispatchFn args = Except.ok t) :
    (m.method t i).invoke args = callResult (i args) := by
  rw [invoke_dispatch_ok (m.method t i) (by rw [dispatchFn_method]; exact hd),
    resolve_method_self]

/-- The state-threaded invocation returns the same outcome as `invoke`
and returns the registry unchanged. -/
theorem invokeS_spec {α ε β : Type} (m : Multimethod α ε β) (args : α) :
    m.invokeS args = (m.invoke args, m) := by
  unfold Multimethod.invokeS Multimethod.invoke
  cases hd : m.dispatchFn args with
  | error e => simp [hd]
  | ok tok => cases hr : m.resolve tok <;> simp [hd, hr]

/-- On a registry whose prototype is untouched, the full-state invocation
agrees with the restricted-state one. -/
theorem invokeP_toFull {α ε β : Type} (m : Multimethod α ε β) (args : α) :
    m.toFull.invokeP args = m.invoke args := by
  cases hd : m.dispatchFn args with
  | error e =>
    simp [MultimethodP.invokeP, Multimethod.invoke, Multimethod.toFull, hd]
  | ok tok =>
    cases hown : getEntry m.methods (MKey.str tok) with
    | some f =>
      simp [MultimethodP.invokeP, Multimethod.invoke, Multimethod.toFull,
        Multimethod.resolve, hd, hown]
    | none =>
      by_cases h1 : tok ∈ objectPrototypeFunctionKeys
      · simp [MultimethodP.invokeP, Multimethod.invoke, Multimethod.toFull,
          Multimethod.resolve, chainGet, hd, hown, h1]
      · by_cases h2 : tok = "__proto__"
        · subst h2
          simp [MultimethodP.invokeP, Multimethod.invoke, Multimethod.toFull,
            Multimethod.resolve, chainGet, objectPrototypeAccessorKeys,
            hd, hown, h1]
        · cases hdef : getEntry m.methods MKey.defaultSym <;>
            simp [MultimethodP.invokeP, Multimethod.invoke, Multimethod.toFull,
              Multimethod.resolve, chainGet, objectPrototypeAccessorKeys,
              hd, hown, h1, h2, hdef]

/-- On a registry whose prototype is untouched, a registration under any
token other than `"__proto__"` is the plain own-property write: the two
models agree, and the prototype stays `Object.prototype`. -/
theorem methodP_toFull {α ε β : Type} (m : Multimethod α ε β) {t : String}
    (ht : t ≠ "__proto__") (i : JSFun α ε β) :
    m.toFull.methodP t i = some (m.method t i).toFull := by
  cases hown : getEntry m.methods (MKey.str t) with
  | some g =>
    simp [MultimethodP.methodP, Multimethod.toFull, Multimethod.method, hown]
  | none =>
    simp [MultimethodP.methodP, Multimethod.toFull, Multimethod.method, hown, ht]

/-- A registration under a token other than `"__proto__"` that returns
(does not throw) performed exactly the own-property write: same dispatch
function, same prototype, table updated at that one string key. -/
theorem methodP_success_of_ne {α ε β : Type} (m : MultimethodP α ε β)
    {t : String} (ht : t ≠ "__proto__") {i : JSFun α ε β}
    {m' : MultimethodP α ε β} (hreg : m.methodP t i = some m') :
    m' = { m with methods := setEntry m.methods (MKey.str t) i } := by
  unfold MultimethodP.methodP at hreg
  cases hown : getEntry m.methods (MKey.str t) with
  | some g =>
    simp only [hown] at hreg
    exact (Option.some.inj hreg).symm
  | none =>
    simp only [hown] at hreg
    cases hp : m.proto with
    | objectProto =>
      simp only [hp, if_neg ht] at hreg
      exact (Option.some.inj hreg).symm
    | fnProto f =>
      simp only [hp] at hreg
      by_cases h1 : t ∈ functionOwnKeys
      · rw [if_pos h1] at hreg
        exact Option.noConfusion hreg
      · rw [if_neg h1] at hreg
        by_cases h2 : t ∈ functionPrototypePoisonedKeys
        · rw [if_pos h2] at hreg
          exact Option.noConfusion hreg
        · rw [if_neg h2, if_neg ht] at hreg
          exact (Option.some.inj hreg).symm

/-- An own-property write under one string key changes no full-state
invocation that dispatches to a different token: the own lookup at the
other key, the prototype chain, and the default slot are all
untouched. -/
theorem invokeP_setEntry_other {α ε β : Type} (m : MultimethodP α ε β)
    {T1 T2 : String} (hne : T2 ≠ T1) (I : JSFun α ε β) {args : α}
    (hd : m.dispatchFn args = Except.ok T2) :
    MultimethodP.invokeP { m with methods := setEntry m.methods (MKey.str T1) I } args
      = m.invokeP args := by
  have hown : getEntry (setEntry m.methods (MKey.str T1) I) (MKey.str T2)
      = getEntry m.methods (MKey.str T2) :=
    getEntry_setEntry_other (fun h => hne (MKey.str.inj h)) m.methods I
  have hdef : getEntry (setEntry m.methods (MKey.str T1) I) MKey.defaultSym
      = getEntry m.methods MKey.defaultSym :=
    getEntry_setEntry_other (fun h => MKey.noConfusion h) m.methods I
  unfold MultimethodP.invokeP
  simp only [hd, hown, hdef]

/-- C1: the claim says an invocation whose computed token has no
registered implementation, on a registry without a default method, fails
with the `No method defined for dispatch <token>` error.  The code
violates this: with nothing registered and no default, the token
`"toString"` resolves to the inherited `Object.prototype.toString`
(which is not nullish, so the `??` fallback and the null check are both
bypassed) and the registry calls that builtin instead of throwing. -/
theorem C1_unregistered_prototype_token_does_not_fail :
    demoNoDefault.invoke "toString" = Outcome.inheritedCall "toString" ∧
    demoNoDefault.invoke "toString" ≠ Outcome.noMethod (noMethodMessage "toString") :=
  ⟨rfl, by decide⟩

/-- C2: the claim says an invocation whose computed token has no
registered implementation, on a registry with a default method, returns
the default method's result.  The code violates this: the default method
of `demoWithDefault` returns `0` on every argument, yet invoking with
the unregistered token `"toString"` calls the inherited
`Object.prototype.toString` instead, because the inherited value is not
nullish and therefore blocks the `??` fallback to the default slot. -/
theorem C2_unregistered_prototype_token_skips_default :
    demoWithDefault.invoke "toString" = Outcome.inheritedCall "toString" ∧
    demoWithDefault.invoke "toString" ≠ Outcome.ok 0 :=
  ⟨rfl, by decide⟩

/-- C3: after `register(T, I)`, every invocation whose arguments dispatch
to `T` returns exactly `I`'s result for those arguments (a thrown error
of `I` counts as its result, propagated verbatim); the registration is
in effect for the very next invocation, and it persists because no
invocation changes the table. -/
theorem C3_registration_immediate_and_persistent {α ε β : Type}
    (m : Multimethod α ε β) (T : String) (I : JSFun α ε β) (args : α)
    (hd : m.dispatchFn args = Except.ok T) :
    (m.method T I).invoke args = callResult (I args) ∧
    (∀ args2 : α, ((m.method T I).invokeS args2).2 = m.method T I) :=
  ⟨invoke_method_self_aux m I hd, fun args2 => by rw [invokeS_spec]⟩

/-- C3 witness at a concrete registry: register `"a" ↦ 7` on the empty
registry and invoke with `"a"`. -/
theorem C3_witness :
    (demoNoDefault.method "a" (fun _ => Except.ok 7)).invoke "a" = Outcome.ok 7 :=
  (C3_registration_immediate_and_persistent demoNoDefault "a"
    (fun _ => Except.ok 7) "a" rfl).1

/-- C4: when the computed token is the name of a function-valued property
that an empty object literal inherits from `Object.prototype` (such as
`"toString"`, `"constructor"`, `"hasOwnProperty"`) and no implementation
was registered under it, the table lookup yields the inherited function,
so the invocation calls that builtin — the result is
`Outcome.inheritedCall tok`, not a default-method call and not the
`No method defined` error. -/
theorem C4_prototype_keys_shadow_miss {α ε β : Type} (m : Multimethod α ε β)
    (tok : String) (args : α)
    (hmem : tok ∈ objectPrototypeFunctionKeys)
    (hown : getEntry m.methods (MKey.str tok) = none)
    (hd : m.dispatchFn args = Except.ok tok) :
    m.resolve tok = Resolved.inheritedFn tok ∧
    m.invoke args = Outcome.inheritedCall tok := by
  have h1 : m.resolve tok = Resolved.inheritedFn tok := by
    simp [Multimethod.resolve, hown, hmem]
  exact ⟨h1, by rw [invoke_dispatch_ok m hd, h1]⟩

/-- C4 witness: a registry that even has a default method still calls the
inherited `hasOwnProperty` builtin on that token. -/
theorem C4_witness :
    ("hasOwnProperty" ∈ objectPrototypeFunctionKeys) ∧
    demoWithDefault.invoke "hasOwnProperty" = Outcome.inheritedCall "hasOwnProperty" :=
  ⟨by decide,
   (C4_prototype_keys_shadow_miss demoWithDefault "hasOwnProperty" "hasOwnProperty"
     (by decide) rfl rfl).2⟩

/-- C5: registering `I1` under `T` and then `I2` under the same `T`
replaces `I1`: the table entry for `T` is exactly `I2`, and an
invocation dispatching to `T` returns `I2`'s result.  Registration is a
total operation in the source (one assignment and a return), so the
second registration raises no error. -/
theorem C5_reregistration_replaces {α ε β : Type} (m : Multimethod α ε β)
    (T : String) (I1 I2 : JSFun α ε β) (args : α)
    (hd : m.dispatchFn args = Except.ok T) :
    getEntry ((m.method T I1).method T I2).methods (MKey.str T) = some I2 ∧
    ((m.method T I1).method T I2).invoke args = callResult (I2 args) := by
  constructor
  · rw [methods_method]
    exact getEntry_setEntry_self (m.method T I1).methods (MKey.str T) I2
  · exact invoke_method_self_aux (m.method T I1) I2 hd

/-- C5 witness: register `"x" ↦ 1` then `"x" ↦ 2`; invoking with `"x"`
returns `2`. -/
theorem C5_witness :
    ((demoNoDefault.method "x" (fun _ => Except.ok 1)).method "x"
      (fun _ => Except.ok 2)).invoke "x" = Outcome.ok 2 :=
  (C5_reregistration_replaces demoNoDefault "x" (fun _ => Except.ok 1)
    (fun _ => Except.ok 2) "x" rfl).2

/-- C7: the default-method slot is keyed by the `defaultDispatch` symbol,
which is disjoint from every string dispatch token; the slot is set only
at construction (to the supplied default method, or left empty), and no
`register` call can alter or remove it, since registration writes under
a string key. -/
theorem C7_sentinel_disjoint_and_default_immutable {α ε β : Type} :
    (∀ s : String, MKey.str s ≠ MKey.defaultSym) ∧
    (∀ (dfn : JSFun α ε String) (d : Option (JSFun α ε β)),
      getEntry (multimethod dfn d).methods MKey.defaultSym = d) ∧
    (∀ (m : Multimethod α ε β) (tok : String) (impl : JSFun α ε β),
      getEntry (m.method tok impl).methods MKey.defaultSym
        = getEntry m.methods MKey.defaultSym) := by
  refine ⟨fun s h => MKey.noConfusion h, fun dfn d => ?_, fun m tok impl => ?_⟩
  · cases d <;> simp [multimethod, getEntry]
  · rw [methods_method]
    exact getEntry_setEntry_other (fun h => MKey.noConfusion h) m.methods impl

/-- C8: the claim says errors raised by the dispatch function or by a
resolved implementation propagate unchanged, and that
`NoImplementationFound` is the only failure originating in the registry
itself.  The second half is violated by the code.  Evaluation at the
failing inputs: on a fresh registry with no default and nothing
registered, the token `"__proto__"` makes the lookup yield the inherited
non-callable `Object.prototype` value (not nullish, so neither the
default fallback nor the null check fires) and the call `method(...args)`
raises a `TypeError`; and after `method("__proto__", f)` has re-targeted
the table's prototype to `f`, the token `"name"` finds the non-callable
string `f.name` and raises another registry-originating `TypeError`.
Neither failure is the `No method defined` error. -/
theorem C8_registry_originates_type_errors :
    demoNoDefault.invoke "__proto__" = Outcome.typeErrorNotFunction "__proto__" ∧
    demoNoDefault.invoke "__proto__" ≠ Outcome.noMethod (noMethodMessage "__proto__") ∧
    demoPolluted.invokeP "name" = Outcome.typeErrorNotFunction "name" ∧
    demoPolluted.invokeP "name" ≠ Outcome.noMethod (noMethodMessage "name") :=
  ⟨rfl, by decide, rfl, by decide⟩

/-- On the registries whose prototype is untouched (`Multimethod`
states), the propagation half of the error contract holds exactly: an
invocation throws a user error `e` precisely when the dispatch function
threw `e` or the resolved implementation threw `e` (never caught or
wrapped); the `No method defined for dispatch <token>` error arises
precisely when both the specific lookup and the default lookup miss; and
the `TypeError` from calling a non-callable arises precisely at the
inherited `__proto__` lookup. -/
theorem error_propagation_unpolluted {α ε β : Type} (m : Multimethod α ε β)
    (args : α) :
    (∀ e : ε, m.invoke args = Outcome.thrown e ↔
      (m.dispatchFn args = Except.error e ∨
       ∃ (tok : String) (f : JSFun α ε β),
         m.dispatchFn args = Except.ok tok ∧ m.resolve tok = Resolved.user f ∧
         f args = Except.error e)) ∧
    (∀ msg : String, m.invoke args = Outcome.noMethod msg ↔
      ∃ tok : String, m.dispatchFn args = Except.ok tok ∧
        m.resolve tok = Resolved.miss ∧ msg = noMethodMessage tok) ∧
    (∀ name : String, m.invoke args = Outcome.typeErrorNotFunction name ↔
      ∃ tok : String, m.dispatchFn args = Except.ok tok ∧
        m.resolve tok = Resolved.inheritedObj name) := by
  refine ⟨fun e => ?_, fun msg => ?_, fun name => ?_⟩ <;>
    (cases hd : m.dispatchFn args with
     | error e1 => simp [Multimethod.invoke, hd, eq_comm]
     | ok tok =>
       cases hr : m.resolve tok with
       | user f =>
         cases hf : f args with
         | ok v => simp [Multimethod.invoke, hd, hr, callResult, hf, eq_comm]
         | error e2 => simp [Multimethod.invoke, hd, hr, callResult, hf, eq_comm]
       | inheritedFn n2 => simp [Multimethod.invoke, hd, hr, eq_comm]
       | inheritedObj n2 => simp [Multimethod.invoke, hd, hr, eq_comm]
       | miss => simp [Multimethod.invoke, hd, hr, eq_comm])

/-- C9 counterexample: the claim says registering under `T1` never
changes the outcome at a distinct token `T2`.  False for
`T1 = "__proto__"`: on the fresh registry, invoking with `"name"` or
`"call"` throws the `No method defined` error; the registration
`method("__proto__", implForProto)` hits the inherited
`Object.prototype.__proto__` setter and re-targets the table's
prototype to the registered function, after which `"name"` finds the
non-callable `implForProto.name` (a `TypeError`) and `"call"` finds the
inherited `Function.prototype.call` — both outcomes changed by a
registration under a different token. -/
theorem C9_counterexample_proto_pollution :
    demoP.methodP "__proto__" implForProto = some demoPolluted ∧
    demoP.invokeP "name" = Outcome.noMethod (noMethodMessage "name") ∧
    demoPolluted.invokeP "name" = Outcome.typeErrorNotFunction "name" ∧
    demoP.invokeP "call" = Outcome.noMethod (noMethodMessage "call") ∧
    demoPolluted.invokeP "call" = Outcome.inheritedCall "call" :=
  ⟨rfl, rfl, rfl, rfl, rfl⟩

/-- C9 (amended): for every registration under a token `T1` other than
`"__proto__"` that returns (the assignment did not throw), no invocation
whose arguments dispatch to a different token `T2` changes its outcome —
isolation across table entries holds away from the prototype-mutating
key, on the full state space with the mutable prototype included. -/
theorem C9_isolation_away_from_proto {α ε β : Type}
    (m m' : MultimethodP α ε β) (T1 T2 : String) (I : JSFun α ε β)
    (args : α) (hT1 : T1 ≠ "__proto__") (hne : T2 ≠ T1)
    (hreg : m.methodP T1 I = some m')
    (hd : m.dispatchFn args = Except.ok T2) :
    m'.invokeP args = m.invokeP args := by
  rw [methodP_success_of_ne m hT1 hreg]
  exact invokeP_setEntry_other m hne I hd

/-- C9 witness: registering `"a"` on the fresh full-state registry
leaves the outcome at `"b"` unchanged. -/
theorem C9_witness :
    demoP.methodP "a" implForProto = some demoRegA ∧
    demoRegA.invokeP "b" = demoP.invokeP "b" :=
  ⟨rfl, C9_isolation_away_from_proto demoP demoRegA "a" "b" implForProto "b"
    (by decide) (by decide) rfl rfl⟩

/-- C10: invocation is a pure read-then-call: with the table state
threaded through the invocation body explicitly, the registry after any
invocation — successful or failing — is exactly the registry before it,
and the outcome agrees with the pure `invoke`. -/
theorem C10_invocation_never_mutates {α ε β : Type} (m : Multimethod α ε β)
    (args : α) :
    (m.invokeS args).2 = m ∧ (m.invokeS args).1 = m.invoke args := by
  rw [invokeS_spec]
  exact ⟨rfl, rfl⟩
